import Mathlib

/-!
Verification of the ScaleApp connection-group session broker
(src/server.js) via a shallow embedding.

JS `undefined`-able string fields are modelled as `Option String`
(`none` = undefined).  The `groups` Map (scaleId -> Set<ws>) is an
association list keyed by `Option String` whose values are
insertion-ordered duplicate-free lists of session ids; `Map.set`
overwrites in place keeping position, `Set.add` appends when absent,
`Set.delete` removes the element.  Weight values are modelled as `Int`
(the code only ever compares them with strict equality).  Each message
handler is a pure function from the pre-state to the post-state plus an
ordered list of transport effects (`send` / `close`); `ws.close` is
asynchronous in the source, so closes are recorded as effects and the
transport close event is applied separately by `applyClose`.
-/

namespace ScaleApp

abbrev SessionId := Nat

/-- A possibly-undefined string field (JS `undefined` is `none`). -/
abbrev Key := Option String

/-- JS truthiness of a possibly-undefined string (`undefined` and the
empty string are falsy). -/
def truthy : Key → Bool
  | none => false
  | some s => !(s == "")

/-- The field `ws.type`: `null`, `"bridge"` or `"client"`. -/
inductive Role where
  | null
  | bridge
  | client
deriving DecidableEq, Repr

/-- The per-connection mutable fields the server stores on each `ws`,
plus `readyOpen` modelling `ws.readyState === WebSocket.OPEN`. -/
structure Session where
  type : Role
  scaleId : Key
  deviceId : Key
  lastActivity : Nat
  readyOpen : Bool
deriving DecidableEq, Repr

/-- The module-level mutable state: `groups` (scaleId -> Set<ws>) and
`lastWeight` (scaleId -> last broadcast value), plus the per-connection
fields of every session keyed by transport identity. -/
structure ServerState where
  sessions : SessionId → Session
  groups : List (Key × List SessionId)
  lastWeight : List (Key × Int)

/-- Outbound messages, structurally (the JSON payloads of `ws.send`). -/
inductive Msg where
  | errMissingScaleId
  | statusInUse (scaleId : Key)
  | statusMismatch (existingScale requestedScale : Key)
  | statusMerged
  | statusBridgeRegistered (scaleId : Key)
  | statusBridgeDisconnected (scaleId : Key)
  | statusNoScale (scaleId : Key)
  | statusClientRegistered (scaleId : Key)
  | statusClientDisconnected (scaleId : Key)
  | weightMsg (w : Int)
deriving DecidableEq, Repr

/-- Transport effects emitted by a handler, in order. -/
inductive Effect where
  | send (dest : SessionId) (m : Msg)
  | close (sid : SessionId) (code : Nat) (reason : String)
deriving DecidableEq, Repr

/-- JS `Map.get` on an association list. -/
def lookupG {α : Type} : List (Key × α) → Key → Option α
  | [], _ => none
  | (k', v) :: rest, k => if k' == k then some v else lookupG rest k

/-- JS `Map.set`: overwrite in place keeping the position of an existing
key, append a fresh key at the end (JS Map iteration order). -/
def setG {α : Type} : List (Key × α) → Key → α → List (Key × α)
  | [], k, v => [(k, v)]
  | (k', v') :: rest, k, v =>
      if k' == k then (k, v) :: rest else (k', v') :: setG rest k v

/-- JS `Map.delete`. -/
def deleteG {α : Type} : List (Key × α) → Key → List (Key × α)
  | [], _ => []
  | (k', v') :: rest, k =>
      if k' == k then rest else (k', v') :: deleteG rest k

/-- JS `Set.add`: append when absent. -/
def addS (g : List SessionId) (c : SessionId) : List SessionId :=
  if g.contains c then g else g ++ [c]

/-- JS `Set.delete` (elements are unique in a JS Set). -/
def delS (g : List SessionId) (c : SessionId) : List SessionId :=
  g.filter (fun x => !(x == c))

/-- Overwrite the record of one session. -/
def setSess (st : ServerState) (sid : SessionId) (s : Session) : ServerState :=
  { st with sessions := fun i => if i = sid then s else st.sessions i }

/-- Whether a member matches the Rule 2 cross-group scan predicate
`c.type === "bridge" && c.deviceId === ws.deviceId`. -/
def isMatch (f : SessionId → Session) (dev : Key) (c : SessionId) : Bool :=
  (f c).type == Role.bridge && (f c).deviceId == dev

/-- The inner loop of Rule 2 on one group: evict (delete) matching
members that are not open, stop at the first matching open member.
Returns the updated group and the match, if any. -/
def scanGroup (f : SessionId → Session) (dev : Key) :
    List SessionId → List SessionId × Option SessionId
  | [] => ([], none)
  | c :: rest =>
      if isMatch f dev c then
        if (f c).readyOpen then (c :: rest, some c)
        else scanGroup f dev rest
      else
        let r := scanGroup f dev rest
        (c :: r.1, r.2)

/-- Rule 2: iterate the groups in map order, stopping at the first
group that yields a live match. -/
def scanGroups (f : SessionId → Session) (dev : Key) :
    List (Key × List SessionId) → List (Key × List SessionId) × Option SessionId
  | [] => ([], none)
  | (k, g) :: rest =>
      let r := scanGroup f dev g
      match r.2 with
      | some c => ((k, r.1) :: rest, some c)
      | none =>
          let r' := scanGroups f dev rest
          ((k, r.1) :: r'.1, r'.2)

def actionRegisterBridge : String := "register-bridge"
def actionDisconnectBridge : String := "disconnect-bridge"
def actionRegisterClient : String := "register-client"
def actionDisconnectClient : String := "disconnect-client"
def actionWeight : String := "weight"
def reasonMismatch : String := "Scale mismatch – cannot merge"
def reasonMerged : String := "Merged"
def reasonScaleDisconnected : String := "Scale disconnected"
def reasonInactive : String := "Inactive for 1 hour"

/-- The decoded fields of an inbound message:
`const { action, scaleId, weight, deviceId } = data`. -/
structure ActionData where
  action : Key
  scaleId : Key
  weight : Option Int
  deviceId : Key
deriving DecidableEq, Repr

/-- The `register-bridge` handler. -/
def handleRegisterBridge (now : Nat) (sid : SessionId) (scaleId deviceId : Key)
    (st : ServerState) : ServerState × List Effect :=
  if !(truthy scaleId) then (st, [Effect.send sid Msg.errMissingScaleId]) else
  let st1 := setSess st sid
    { type := Role.bridge, scaleId := scaleId, deviceId := deviceId,
      lastActivity := now, readyOpen := (st.sessions sid).readyOpen }
  let st2 :=
    match lookupG st1.groups scaleId with
    | some _ => st1
    | none => { st1 with groups := setG st1.groups scaleId [] }
  let group := (lookupG st2.groups scaleId).getD []
  if group.any (fun c =>
      (st2.sessions c).type == Role.bridge
        && !((st2.sessions c).deviceId == deviceId)) then
    (st2, [Effect.send sid (Msg.statusInUse scaleId)])
  else
  let scanned := scanGroups st2.sessions deviceId st2.groups
  let st3 := { st2 with groups := scanned.1 }
  match scanned.2 with
  | some ex =>
      if !((st3.sessions ex).scaleId == scaleId) then
        (st3, [Effect.send sid (Msg.statusMismatch (st3.sessions ex).scaleId scaleId),
               Effect.close sid 4004 reasonMismatch])
      else
        let st4 := setSess st3 ex
          { type := Role.bridge, scaleId := scaleId, deviceId := deviceId,
            lastActivity := now, readyOpen := (st3.sessions ex).readyOpen }
        let g := (lookupG st4.groups scaleId).getD []
        let st5 := { st4 with groups := setG st4.groups scaleId (addS g ex) }
        (st5, [Effect.send sid Msg.statusMerged,
               Effect.close sid 4003 reasonMerged])
  | none =>
      let g := (lookupG st3.groups scaleId).getD []
      let st4 := { st3 with groups := setG st3.groups scaleId (addS g sid) }
      (st4, [Effect.send sid (Msg.statusBridgeRegistered scaleId)])

/-- The `disconnect-bridge` handler: close every open member with 4001,
remove all members, delete the group, confirm to the requester. -/
def handleDisconnectBridge (sid : SessionId) (scaleId : Key)
    (st : ServerState) : ServerState × List Effect :=
  if !(truthy scaleId) then (st, [Effect.send sid Msg.errMissingScaleId]) else
  match lookupG st.groups scaleId with
  | none => (st, [])
  | some g =>
      let es := g.filterMap (fun c =>
        if (st.sessions c).readyOpen then
          some (Effect.close c 4001 reasonScaleDisconnected)
        else none)
      ({ st with groups := deleteG st.groups scaleId },
       es ++ [Effect.send sid (Msg.statusBridgeDisconnected scaleId)])

/-- The `register-client` handler: no group creation; stamp and admit
only when the group already exists. -/
def handleRegisterClient (now : Nat) (sid : SessionId) (scaleId deviceId : Key)
    (st : ServerState) : ServerState × List Effect :=
  if !(truthy scaleId) then (st, [Effect.send sid Msg.errMissingScaleId]) else
  match lookupG st.groups scaleId with
  | none => (st, [Effect.send sid (Msg.statusNoScale scaleId)])
  | some g =>
      let st1 := setSess st sid
        { type := Role.client, scaleId := scaleId, deviceId := deviceId,
          lastActivity := now, readyOpen := (st.sessions sid).readyOpen }
      ({ st1 with groups := setG st1.groups scaleId (addS g sid) },
       [Effect.send sid (Msg.statusClientRegistered scaleId)])

/-- The `disconnect-client` handler: close with 4001 and remove exactly
the members that are open and have client role. -/
def handleDisconnectClient (sid : SessionId) (scaleId : Key)
    (st : ServerState) : ServerState × List Effect :=
  if !(truthy scaleId) then (st, [Effect.send sid Msg.errMissingScaleId]) else
  match lookupG st.groups scaleId with
  | none => (st, [])
  | some g =>
      let keep := g.filter (fun c =>
        !((st.sessions c).readyOpen && (st.sessions c).type == Role.client))
      let es := g.filterMap (fun c =>
        if (st.sessions c).readyOpen && (st.sessions c).type == Role.client then
          some (Effect.close c 4001 reasonScaleDisconnected)
        else none)
      ({ st with groups := setG st.groups scaleId keep },
       es ++ [Effect.send sid (Msg.statusClientDisconnected scaleId)])

/-- The `weight` handler: drop when `weight` is undefined; suppress when
equal to the cached value; otherwise update the cache and, when a group
exists, fan `{weight}` out to every open member.  Note the cache update
happens before the group-existence check, and the sender is never
consulted. -/
def handleWeight (scaleId : Key) (weight : Option Int)
    (st : ServerState) : ServerState × List Effect :=
  match weight with
  | none => (st, [])
  | some w =>
      if lookupG st.lastWeight scaleId == some w then (st, [])
      else
        let st1 := { st with lastWeight := setG st.lastWeight scaleId w }
        match lookupG st1.groups scaleId with
        | none => (st1, [])
        | some g =>
            (st1, g.filterMap (fun c =>
              if (st1.sessions c).readyOpen then
                some (Effect.send c (Msg.weightMsg w))
              else none))

/-- The message dispatcher (`ws.on("message")` after JSON decoding). -/
def handleMessage (now : Nat) (sid : SessionId) (d : ActionData)
    (st : ServerState) : ServerState × List Effect :=
  if d.action == some actionRegisterBridge then
    handleRegisterBridge now sid d.scaleId d.deviceId st
  else if d.action == some actionDisconnectBridge then
    handleDisconnectBridge sid d.scaleId st
  else if d.action == some actionRegisterClient then
    handleRegisterClient now sid d.scaleId d.deviceId st
  else if d.action == some actionDisconnectClient then
    handleDisconnectClient sid d.scaleId st
  else if d.action == some actionWeight then
    handleWeight d.scaleId d.weight st
  else (st, [])

/-- The transport close event for one session: the socket is no longer
open, and the `ws.on("close")` hook removes the session from the group
of its current scaleId (when truthy and present) without any pruning. -/
def applyClose (sid : SessionId) (st : ServerState) : ServerState :=
  let s := st.sessions sid
  let st1 := setSess st sid { s with readyOpen := false }
  if truthy s.scaleId then
    match lookupG st1.groups s.scaleId with
    | some g => { st1 with groups := setG st1.groups s.scaleId (delS g sid) }
    | none => st1
  else st1

def TIMEOUT_MS : Nat := 60 * 60 * 1000

/-- One group of the reaper sweep: skip sessions with falsy
`lastActivity`, close with 4002 and remove the timed-out ones. -/
def reapGroup (now : Nat) (f : SessionId → Session) :
    List SessionId → List SessionId × List Effect
  | [] => ([], [])
  | c :: rest =>
      if (f c).lastActivity == 0 then
        let r := reapGroup now f rest
        (c :: r.1, r.2)
      else if TIMEOUT_MS < now - (f c).lastActivity then
        let r := reapGroup now f rest
        (r.1, Effect.close c 4002 reasonInactive :: r.2)
      else
        let r := reapGroup now f rest
        (c :: r.1, r.2)

/-- The reaper sweep over all groups: after sweeping a group, delete it
when it has become (or already was) empty. -/
def reapGroups (now : Nat) (f : SessionId → Session) :
    List (Key × List SessionId) → List (Key × List SessionId) × List Effect
  | [] => ([], [])
  | (k, g) :: rest =>
      let r := reapGroup now f g
      let r' := reapGroups now f rest
      if r.1.length == 0 then (r'.1, r.2 ++ r'.2)
      else ((k, r.1) :: r'.1, r.2 ++ r'.2)

/-- The whole periodic sweep as a state transformer. -/
def reaperSweep (now : Nat) (st : ServerState) : ServerState × List Effect :=
  let r := reapGroups now st.sessions st.groups
  ({ st with groups := r.1 }, r.2)

/-- A fresh connection as initialised by the connection handler. -/
def freshSession (now : Nat) : Session :=
  { type := Role.null, scaleId := none, deviceId := none,
    lastActivity := now, readyOpen := true }

/-! Concrete scale identifiers, device identifiers and states used in
counterexamples and witnesses. -/

def strS : String := "S"
def strA : String := "A"
def strB : String := "B"
def strX : String := "X"
def strY : String := "Y"
def strD : String := "d"
def strU : String := "u"
def strV : String := "v"

/-- The registry at process start. -/
def stEmpty : ServerState :=
  { sessions := fun _ => freshSession 0, groups := [], lastWeight := [] }

/-- One open bridge session 1 on scale S from device d, last active at 5. -/
def stBridgeS : ServerState :=
  { sessions := fun i =>
      if i = 1 then
        { type := Role.bridge, scaleId := some strS, deviceId := some strD,
          lastActivity := 5, readyOpen := true }
      else freshSession 0,
    groups := [(some strS, [1])], lastWeight := [] }

/-- A registry whose only group is scale X with the single member m:
the shape reached when a bridge holds X and no other scale was ever
referenced.  Sessions and cache are arbitrary. -/
def stOneBridge (f : SessionId → Session) (X : String) (m : SessionId)
    (cache : List (Key × Int)) : ServerState :=
  { sessions := f, groups := [(some X, [m])], lastWeight := cache }

/-- One open bridge session 10 on scale X from device d. -/
def stBridgeX : ServerState :=
  { sessions := fun i =>
      if i = 10 then
        { type := Role.bridge, scaleId := some strX, deviceId := some strD,
          lastActivity := 5, readyOpen := true }
      else freshSession 0,
    groups := [(some strX, [10])], lastWeight := [] }

/-- One open bridge session 1 on scale S from device A. -/
def stBridgeDevA : ServerState :=
  { sessions := fun i =>
      if i = 1 then
        { type := Role.bridge, scaleId := some strS, deviceId := some strA,
          lastActivity := 5, readyOpen := true }
      else freshSession 0,
    groups := [(some strS, [1])], lastWeight := [] }

/-- Client session 1 bound to scale A and bridge session 2 bound to scale
B, both open. -/
def stTwoGroups : ServerState :=
  { sessions := fun i =>
      if i = 1 then
        { type := Role.client, scaleId := some strA, deviceId := some strU,
          lastActivity := 5, readyOpen := true }
      else if i = 2 then
        { type := Role.bridge, scaleId := some strB, deviceId := some strV,
          lastActivity := 5, readyOpen := true }
      else freshSession 0,
    groups := [(some strA, [1]), (some strB, [2])], lastWeight := [] }

/-- Bridge session 1 and client session 2, both open on scale S. -/
def stBridgeAndClient : ServerState :=
  { sessions := fun i =>
      if i = 1 then
        { type := Role.bridge, scaleId := some strS, deviceId := some strD,
          lastActivity := 5, readyOpen := true }
      else if i = 2 then
        { type := Role.client, scaleId := some strS, deviceId := some strU,
          lastActivity := 5, readyOpen := true }
      else freshSession 0,
    groups := [(some strS, [1, 2])], lastWeight := [] }

/-! Helper lemmas about the container operations. -/

theorem lookupG_setG_self {α : Type} (l : List (Key × α)) (k : Key) (v : α) :
    lookupG (setG l k v) k = some v := by
  induction l with
  | nil => simp [setG, lookupG]
  | cons p rest ih =>
      obtain ⟨k', v'⟩ := p
      by_cases h : (k' == k) = true
      · simp [setG, h, lookupG]
      · simp [setG, h, lookupG, ih]

theorem lookupG_setG_ne {α : Type} (l : List (Key × α)) (k k' : Key) (v : α)
    (h : k' ≠ k) : lookupG (setG l k v) k' = lookupG l k' := by
  induction l with
  | nil =>
      have hk : (k == k') = false := by
        simp only [beq_eq_false_iff_ne, ne_eq]
        exact fun e => h e.symm
      simp [setG, lookupG, hk]
  | cons p rest ih =>
      obtain ⟨k'', v''⟩ := p
      by_cases hh : (k'' == k) = true
      · have hk : (k == k') = false := by
          simp only [beq_eq_false_iff_ne, ne_eq]
          exact fun e => h e.symm
        have hk2 : (k'' == k') = false := by
          simp only [beq_eq_false_iff_ne, ne_eq]
          intro e
          exact h (by rw [← e, eq_of_beq hh])
        simp [setG, hh, lookupG, hk, hk2, eq_of_beq hh]
      · simp [setG, hh, lookupG, ih]

theorem lookupG_mem {α : Type} (l : List (Key × α)) (k : Key) (v : α)
    (h : lookupG l k = some v) : (k, v) ∈ l := by
  induction l with
  | nil => simp [lookupG] at h
  | cons p rest ih =>
      obtain ⟨k', v'⟩ := p
      by_cases hh : (k' == k) = true
      · simp only [lookupG] at h
        rw [if_pos hh] at h
        cases h
        simp [eq_of_beq hh]
      · simp only [lookupG] at h
        rw [if_neg hh] at h
        exact List.mem_cons_of_mem _ (ih h)

theorem setG_keys {α : Type} (l : List (Key × α)) (k : Key) (v w : α)
    (h : lookupG l k = some w) : (setG l k v).map Prod.fst = l.map Prod.fst := by
  induction l with
  | nil => simp [lookupG] at h
  | cons p rest ih =>
      obtain ⟨k', v'⟩ := p
      by_cases hh : (k' == k) = true
      · simp [setG, hh, eq_of_beq hh]
      · simp only [lookupG, hh, if_neg, Bool.false_eq_true, not_false_iff] at h
        simp [setG, hh, ih h]

theorem setG_lookup_self {α : Type} (l : List (Key × α)) (k : Key) (v : α)
    (h : lookupG l k = some v) : setG l k v = l := by
  induction l with
  | nil => simp [lookupG] at h
  | cons p rest ih =>
      obtain ⟨k', v'⟩ := p
      by_cases hh : (k' == k) = true
      · simp only [lookupG, hh, if_true, Option.some.injEq] at h
        simp [setG, hh, eq_of_beq hh, h]
      · simp only [lookupG, hh, Bool.false_eq_true, if_false] at h
        simp [setG, hh, ih h]

theorem mem_addS_self (g : List SessionId) (c : SessionId) : c ∈ addS g c := by
  unfold addS
  by_cases h : g.contains c = true
  · rw [if_pos h]
    exact List.mem_of_elem_eq_true h
  · rw [if_neg h]
    simp

theorem addS_mem (g : List SessionId) (c : SessionId) (h : c ∈ g) :
    addS g c = g := by
  unfold addS
  rw [if_pos (List.elem_eq_true_of_mem h)]

theorem not_mem_delS (g : List SessionId) (c : SessionId) : c ∉ delS g c := by
  simp [delS, List.mem_filter]

theorem mem_of_mem_delS {g : List SessionId} {c x : SessionId}
    (h : x ∈ delS g c) : x ∈ g ∧ x ≠ c := by
  simp only [delS, List.mem_filter, Bool.not_eq_true', beq_eq_false_iff_ne] at h
  exact h

theorem scanGroup_none (f : SessionId → Session) (dev : Key) (g : List SessionId)
    (h : ∀ c ∈ g, isMatch f dev c = false) : scanGroup f dev g = (g, none) := by
  induction g with
  | nil => rfl
  | cons c rest ih =>
      have hc : isMatch f dev c = false := h c (List.mem_cons_self c rest)
      simp only [scanGroup, hc, Bool.false_eq_true, if_false]
      rw [ih (fun x hx => h x (List.mem_cons_of_mem c hx))]

theorem scanGroup_self (f : SessionId → Session) (dev : Key) (g : List SessionId)
    (s : SessionId) (hs : s ∈ g) (hm : isMatch f dev s = true)
    (ho : (f s).readyOpen = true)
    (hu : ∀ c ∈ g, isMatch f dev c = true → c = s) :
    scanGroup f dev g = (g, some s) := by
  induction g with
  | nil => simp at hs
  | cons c rest ih =>
      by_cases hc : isMatch f dev c = true
      · have hcs : c = s := hu c (List.mem_cons_self c rest) hc
        subst hcs
        simp only [scanGroup, hc, if_true, ho]
      · have hcne : (c : SessionId) ≠ s := fun e => hc (e ▸ hm)
        have hsrest : s ∈ rest := by
          rcases List.mem_cons.mp hs with h1 | h1
          · exact absurd h1.symm hcne
          · exact h1
        simp only [scanGroup, hc, Bool.false_eq_true, if_false]
        rw [ih hsrest (fun x hx hmx => hu x (List.mem_cons_of_mem c hx) hmx)]

theorem scanGroups_self (f : SessionId → Session) (dev : Key)
    (gs : List (Key × List SessionId)) (s : SessionId)
    (hm : isMatch f dev s = true) (ho : (f s).readyOpen = true)
    (hu : ∀ p ∈ gs, ∀ c ∈ p.2, isMatch f dev c = true → c = s)
    (hex : ∃ p ∈ gs, s ∈ p.2) :
    scanGroups f dev gs = (gs, some s) := by
  induction gs with
  | nil => simp at hex
  | cons p rest ih =>
      obtain ⟨k, g⟩ := p
      by_cases hg : s ∈ g
      · have := scanGroup_self f dev g s hg hm ho
          (fun c hc hmc => hu (k, g) (List.mem_cons_self _ rest) c hc hmc)
        simp only [scanGroups, this]
      · have hnone : ∀ c ∈ g, isMatch f dev c = false := by
          intro c hc
          cases hmc : isMatch f dev c
          · rfl
          · exact absurd (hu (k, g) (List.mem_cons_self _ rest) c hc hmc ▸ hc) hg
        have hscan := scanGroup_none f dev g hnone
        have hexrest : ∃ p ∈ rest, s ∈ p.2 := by
          rcases hex with ⟨q, hq, hsq⟩
          rcases List.mem_cons.mp hq with h1 | h1
          · subst h1
            exact absurd hsq hg
          · exact ⟨q, h1, hsq⟩
        have hrest := ih (fun q hq c hc hmc => hu q (List.mem_cons_of_mem _ hq) c hc hmc) hexrest
        simp only [scanGroups, hscan, hrest]

theorem reapGroups_no_empty (now : Nat) (f : SessionId → Session)
    (gs : List (Key × List SessionId)) :
    ∀ p ∈ (reapGroups now f gs).1, p.2 ≠ [] := by
  induction gs with
  | nil => simp [reapGroups]
  | cons q rest ih =>
      obtain ⟨k, g⟩ := q
      intro p hp
      simp only [reapGroups] at hp
      by_cases hlen : ((reapGroup now f g).1.length == 0) = true
      · rw [if_pos hlen] at hp
        exact ih p hp
      · rw [if_neg hlen] at hp
        rcases List.mem_cons.mp hp with h1 | h1
        · subst h1
          intro hnil
          apply hlen
          simp only [beq_iff_eq, List.length_eq_zero]
          exact hnil
        · exact ih p h1

theorem applyClose_keys (sid : SessionId) (st : ServerState) :
    (applyClose sid st).groups.map Prod.fst = st.groups.map Prod.fst := by
  unfold applyClose
  by_cases ht : truthy (st.sessions sid).scaleId = true
  · rw [if_pos ht]
    cases hl : lookupG st.groups (st.sessions sid).scaleId with
    | none => simp [setSess, hl]
    | some g =>
        simp only [setSess, hl]
        exact setG_keys st.groups _ _ g hl
  · rw [if_neg ht]
    rfl

theorem applyClose_not_mem (sid : SessionId) (st : ServerState)
    (g' : List SessionId)
    (ht : truthy (st.sessions sid).scaleId = true)
    (hl : lookupG (applyClose sid st).groups ((st.sessions sid).scaleId) = some g') :
    sid ∉ g' := by
  unfold applyClose at hl
  rw [if_pos ht] at hl
  cases hg : lookupG st.groups (st.sessions sid).scaleId with
  | none =>
      simp only [setSess, hg] at hl
      simp at hl
  | some g =>
      simp only [setSess, hg] at hl
      rw [lookupG_setG_self] at hl
      cases hl
      exact not_mem_delS g sid

/-! Claim theorems. -/

/-- C1: the claim says every inbound action (weight included) refreshes
the lastActivity of its session, so the reaper never closes a session
that acted within the timeout window.  The code refreshes lastActivity
only in the register handlers: here session 1 processes a weight action
at time 3600000 (its fan-out reply proves the action was processed), its
lastActivity stays 5, and the sweep at 3600006 — only 6 ms after that
action — still closes it with 4002 and deletes its group. -/
theorem c1_weight_not_counted_as_activity :
    (handleMessage 3600000 1
        { action := some actionWeight, scaleId := some strS,
          weight := some 7, deviceId := none } stBridgeS).2
      = [Effect.send 1 (Msg.weightMsg 7)]
    ∧ ((handleMessage 3600000 1
        { action := some actionWeight, scaleId := some strS,
          weight := some 7, deviceId := none } stBridgeS).1.sessions 1).lastActivity = 5
    ∧ 3600006 - 3600000 ≤ TIMEOUT_MS
    ∧ (reaperSweep 3600006 (handleMessage 3600000 1
        { action := some actionWeight, scaleId := some strS,
          weight := some 7, deviceId := none } stBridgeS).1).2
      = [Effect.close 1 4002 reasonInactive]
    ∧ (reaperSweep 3600006 (handleMessage 3600000 1
        { action := some actionWeight, scaleId := some strS,
          weight := some 7, deviceId := none } stBridgeS).1).1.groups = [] := by
  decide

/-- C3 counterexample: the close-on-disconnect hook removes the closed
session from its group but performs no empty-group pruning: after the
transport reports session 1 closed, scale S still maps to an empty
group in the registry, though the claim says it must be deleted. -/
theorem c3_close_hook_leaves_empty_group_cex :
    stBridgeS.groups = [(some strS, [1])]
    ∧ (applyClose 1 stBridgeS).groups = [(some strS, [])] := by
  decide

/-- C3 amended: the close hook removes the session from the group of its
scaleId but never deletes a group (the key set of the registry is
unchanged even when the group becomes empty); empty groups are deleted
by the reaper sweep, after which every group in the registry is
nonempty. -/
theorem c3_close_hook_removes_without_prune :
    (∀ (st : ServerState) (sid : SessionId),
        (applyClose sid st).groups.map Prod.fst = st.groups.map Prod.fst)
    ∧ (∀ (st : ServerState) (sid : SessionId) (g' : List SessionId),
        truthy (st.sessions sid).scaleId = true →
        lookupG (applyClose sid st).groups ((st.sessions sid).scaleId) = some g' →
        sid ∉ g')
    ∧ (∀ (now : Nat) (st : ServerState) (p : Key × List SessionId),
        p ∈ (reaperSweep now st).1.groups → p.2 ≠ []) :=
  ⟨fun st sid => applyClose_keys sid st,
   fun st sid g' ht hl => applyClose_not_mem sid st g' ht hl,
   fun now st p hp => reapGroups_no_empty now st.sessions st.groups p hp⟩

/-- C3 witness: the amended theorem applied to the one-bridge registry:
closing session 1 keeps the key of scale S, removes 1 from the group it
was in, and a sweep that reaps nothing keeps only nonempty groups. -/
theorem c3_close_hook_removes_without_prune_witness :
    (applyClose 1 stBridgeS).groups.map Prod.fst = stBridgeS.groups.map Prod.fst
    ∧ (1 : SessionId) ∉ ([] : List SessionId)
    ∧ ([1] : List SessionId) ≠ [] :=
  ⟨c3_close_hook_removes_without_prune.1 stBridgeS 1,
   c3_close_hook_removes_without_prune.2.1 stBridgeS 1 [] (by decide) (by decide),
   c3_close_hook_removes_without_prune.2.2 10 stBridgeS (some strS, [1]) (by decide)⟩

/-- C4 counterexample: a weight action for a scale with no group is
dropped with no reply and no fan-out, but the claim that the WeightCache
entry is untouched is false: the cache is written before the
group-existence check, so the entry for S appears in the cache. -/
theorem c4_weight_drop_updates_cache_cex :
    lookupG stEmpty.groups (some strS) = none
    ∧ stEmpty.lastWeight = []
    ∧ (handleWeight (some strS) (some 5) stEmpty).2 = []
    ∧ (handleWeight (some strS) (some 5) stEmpty).1.lastWeight = [(some strS, 5)] := by
  decide

/-- C4 amended: a weight action naming a scaleId with no group produces
no reply and no fan-out and leaves groups and sessions unchanged, but
the WeightCache entry for that scaleId is updated (whenever the value
differs from the cached one) before the drop. -/
theorem c4_weight_no_group_drop (st : ServerState) (k : Key) (w : Int)
    (hc : (lookupG st.lastWeight k == some w) = false)
    (hg : lookupG st.groups k = none) :
    handleWeight k (some w) st
      = ({ st with lastWeight := setG st.lastWeight k w }, []) := by
  unfold handleWeight
  simp [hc, hg]

/-- C4 witness: the amended theorem at the empty registry with a fresh
value for scale S. -/
theorem c4_weight_no_group_drop_witness :
    handleWeight (some strS) (some 5) stEmpty
      = ({ stEmpty with lastWeight := setG stEmpty.lastWeight (some strS) 5 }, []) :=
  c4_weight_no_group_drop stEmpty (some strS) 5 (by decide) (by decide)

/-- C9: the weight branch never consults the sender: for the same state,
the same weight action record sent by any two sessions (whatever their
role, registration or deviceId fields) produces exactly the same
post-state and the same effects. -/
theorem c9_weight_sender_independent (now : Nat) (sid1 sid2 : SessionId)
    (k : Key) (w : Option Int) (dv1 dv2 : Key) (st : ServerState) :
    handleMessage now sid1
        { action := some actionWeight, scaleId := k, weight := w, deviceId := dv1 } st
      = handleMessage now sid2
        { action := some actionWeight, scaleId := k, weight := w, deviceId := dv2 } st := by
  rfl

/-- C8: for a scale with an existing group and a value differing from
the cached one, the first weight action updates the cache and fans
`{weight}` out to exactly the open members of the group, and the
immediately repeated identical value is suppressed: no effects at all
and a state identical to the one after the first action. -/
theorem c8_weight_suppression (st : ServerState) (k : Key) (v : Int)
    (g : List SessionId)
    (hg : lookupG st.groups k = some g)
    (hc : (lookupG st.lastWeight k == some v) = false) :
    (handleWeight k (some v) st).2
      = g.filterMap (fun c =>
          if (st.sessions c).readyOpen then
            some (Effect.send c (Msg.weightMsg v))
          else none)
    ∧ (handleWeight k (some v) st).1.lastWeight = setG st.lastWeight k v
    ∧ (handleWeight k (some v) (handleWeight k (some v) st).1).2 = []
    ∧ (handleWeight k (some v) (handleWeight k (some v) st).1).1
        = (handleWeight k (some v) st).1 := by
  have h1 : handleWeight k (some v) st
      = ({ st with lastWeight := setG st.lastWeight k v },
         g.filterMap (fun c =>
           if (st.sessions c).readyOpen then
             some (Effect.send c (Msg.weightMsg v))
           else none)) := by
    unfold handleWeight
    simp [hc, hg]
  have h2 : handleWeight k (some v) (handleWeight k (some v) st).1
      = ((handleWeight k (some v) st).1, []) := by
    rw [h1]
    unfold handleWeight
    simp [lookupG_setG_self]
  exact ⟨by rw [h1], by rw [h1], by rw [h2], by rw [h2]⟩

/-- C8 witness: scale S with bridge 1 and client 2 and an empty cache:
weight 4 fans out to both open members once; resending 4 produces no
effects and does not change the state. -/
theorem c8_weight_suppression_witness :
    (handleWeight (some strS) (some 4) stBridgeAndClient).2
      = [1, 2].filterMap (fun c =>
          if (stBridgeAndClient.sessions c).readyOpen then
            some (Effect.send c (Msg.weightMsg 4))
          else none)
    ∧ (handleWeight (some strS) (some 4) stBridgeAndClient).1.lastWeight
        = setG stBridgeAndClient.lastWeight (some strS) 4
    ∧ (handleWeight (some strS) (some 4)
        (handleWeight (some strS) (some 4) stBridgeAndClient).1).2 = []
    ∧ (handleWeight (some strS) (some 4)
        (handleWeight (some strS) (some 4) stBridgeAndClient).1).1
        = (handleWeight (some strS) (some 4) stBridgeAndClient).1 :=
  c8_weight_suppression stBridgeAndClient (some strS) 4 [1, 2]
    (by decide) (by decide)

/-- C5 counterexample: client session 1 is a member of the group of
scale A; when it registers as client for scale B (whose group exists),
the handler adds it to the group of B without removing it from the group
of A, so afterwards session 1 is a member of two groups at once,
violating the at-most-one-group invariant. -/
theorem c5_session_in_two_groups_cex :
    lookupG stTwoGroups.groups (some strA) = some [1]
    ∧ lookupG
        (handleRegisterClient 9 1 (some strB) (some strU) stTwoGroups).1.groups
        (some strA) = some [1]
    ∧ lookupG
        (handleRegisterClient 9 1 (some strB) (some strU) stTwoGroups).1.groups
        (some strB) = some [2, 1] := by
  decide

/-- C5 amended: register-client admits the session to the target group
but leaves every other group of the registry unchanged, so a session
already belonging to another group ends up in two groups; the
at-most-one-group invariant is not preserved by register-client. -/
theorem c5_register_client_keeps_other_groups
    (now : Nat) (sid : SessionId) (B : String) (dv : Key)
    (st : ServerState) (g : List SessionId)
    (hB : B ≠ "")
    (hg : lookupG st.groups (some B) = some g) :
    lookupG (handleRegisterClient now sid (some B) dv st).1.groups (some B)
      = some (addS g sid)
    ∧ sid ∈ addS g sid
    ∧ ∀ k, k ≠ some B →
        lookupG (handleRegisterClient now sid (some B) dv st).1.groups k
          = lookupG st.groups k := by
  have ht : truthy (some B) = true := by simp [truthy, hB]
  unfold handleRegisterClient
  simp only [ht, Bool.not_true, Bool.false_eq_true, if_false, hg, setSess]
  exact ⟨lookupG_setG_self _ _ _, mem_addS_self g sid,
    fun k hk => lookupG_setG_ne _ _ _ _ hk⟩

/-- C5 witness: the amended theorem at the two-group registry: session 1
is admitted to the group of B and the group of A is untouched. -/
theorem c5_register_client_keeps_other_groups_witness :
    lookupG (handleRegisterClient 9 1 (some strB) (some strU) stTwoGroups).1.groups
        (some strB) = some (addS [2] 1)
    ∧ (1 : SessionId) ∈ addS [2] 1
    ∧ lookupG (handleRegisterClient 9 1 (some strB) (some strU) stTwoGroups).1.groups
        (some strA) = lookupG stTwoGroups.groups (some strA) :=
  ⟨(c5_register_client_keeps_other_groups 9 1 strB (some strU) stTwoGroups [2]
      (by decide) (by decide)).1,
   (c5_register_client_keeps_other_groups 9 1 strB (some strU) stTwoGroups [2]
      (by decide) (by decide)).2.1,
   (c5_register_client_keeps_other_groups 9 1 strB (some strU) stTwoGroups [2]
      (by decide) (by decide)).2.2 (some strA) (by decide)⟩

/-- C6 counterexample: the claim quantifies over every register-bridge
attempt for S carrying a deviceId different from the one of the bridge
member.  When the attempt comes from that very bridge session (device
identity is self-reported and unverified), the provisional stamping
overwrites its deviceId before Rule 1 scans the group, so the conflict
is not detected: session 1 holds the bridge on S with deviceId A,
re-registers claiming deviceId B, and receives the merge status and a
4003 close instead of the required in-use status. -/
theorem c6_self_device_change_cex :
    (stBridgeDevA.sessions 1).type = Role.bridge
    ∧ (stBridgeDevA.sessions 1).deviceId = some strA
    ∧ lookupG stBridgeDevA.groups (some strS) = some [1]
    ∧ (some strA : Key) ≠ some strB
    ∧ (handleRegisterBridge 9 1 (some strS) (some strB) stBridgeDevA).2
        = [Effect.send 1 Msg.statusMerged, Effect.close 1 4003 reasonMerged]
    ∧ (handleRegisterBridge 9 1 (some strS) (some strB) stBridgeDevA).2
        ≠ [Effect.send 1 (Msg.statusInUse (some strS))] := by
  decide

/-- C6 amended: while a bridge session m with deviceId A is a member of
the group of S, every register-bridge attempt for S carrying a different
deviceId B from any session other than m itself receives the in-use
status, the group map is not mutated, and no session other than the
requester is touched. -/
theorem c6_cross_device_reject (now : Nat) (st : ServerState)
    (r m : SessionId) (S : String) (B : Key) (g : List SessionId)
    (hS : S ≠ "")
    (hg : lookupG st.groups (some S) = some g)
    (hm : m ∈ g) (hmr : m ≠ r)
    (hbridge : (st.sessions m).type = Role.bridge)
    (hdev : (st.sessions m).deviceId ≠ B) :
    (handleRegisterBridge now r (some S) B st).2
      = [Effect.send r (Msg.statusInUse (some S))]
    ∧ (handleRegisterBridge now r (some S) B st).1.groups = st.groups
    ∧ ∀ c, c ≠ r →
        (handleRegisterBridge now r (some S) B st).1.sessions c
          = st.sessions c := by
  have ht : truthy (some S) = true := by simp [truthy, hS]
  unfold handleRegisterBridge
  simp only [ht, Bool.not_true, Bool.false_eq_true, if_false, setSess, hg,
    Option.getD_some]
  split
  · exact ⟨rfl, rfl, fun c hc => by simp [hc]⟩
  · rename_i hcond
    exfalso
    apply hcond
    refine List.any_eq_true.mpr ⟨m, hm, ?_⟩
    simp only [hmr, if_neg]
    simp [hbridge, hdev]

/-- C6 witness: the amended theorem on the registry where bridge 1 with
device A holds scale S and the fresh session 2 attempts register-bridge
for S with device B. -/
theorem c6_cross_device_reject_witness :
    (handleRegisterBridge 9 2 (some strS) (some strB) stBridgeDevA).2
      = [Effect.send 2 (Msg.statusInUse (some strS))]
    ∧ (handleRegisterBridge 9 2 (some strS) (some strB) stBridgeDevA).1.groups
        = stBridgeDevA.groups
    ∧ (handleRegisterBridge 9 2 (some strS) (some strB) stBridgeDevA).1.sessions 1
        = stBridgeDevA.sessions 1 :=
  ⟨(c6_cross_device_reject 9 stBridgeDevA 2 1 strS (some strB) [1]
      (by decide) (by decide) (by decide) (by decide) (by decide) (by decide)).1,
   (c6_cross_device_reject 9 stBridgeDevA 2 1 strS (some strB) [1]
      (by decide) (by decide) (by decide) (by decide) (by decide) (by decide)).2.1,
   (c6_cross_device_reject 9 stBridgeDevA 2 1 strS (some strB) [1]
      (by decide) (by decide) (by decide) (by decide) (by decide) (by decide)).2.2
      1 (by decide)⟩

/-- C2 counterexample: device d holds a live bridge (session 10) on
scale X; the fresh session 1 asks to register as bridge for scale Y.
The requester does get the mismatch status and the 4004 close and the
existing session is untouched, but the group map created for Y on this
attempt is never pruned: even after the close of the requester is
applied, scale Y is still present in the registry, mapped to an empty
group, though the claim requires it to be absent. -/
theorem c2_rule2A_leaves_empty_group_cex :
    lookupG stBridgeX.groups (some strY) = none
    ∧ (handleRegisterBridge 7 1 (some strY) (some strD) stBridgeX).2
        = [Effect.send 1 (Msg.statusMismatch (some strX) (some strY)),
           Effect.close 1 4004 reasonMismatch]
    ∧ lookupG
        (applyClose 1 (handleRegisterBridge 7 1 (some strY) (some strD) stBridgeX).1).groups
        (some strY) = some [] := by
  decide

/-- C2 amended: in a registry whose only group is scale X held by the
live bridge m with device d, a register-bridge attempt for a different
scale Y from a session r with the same device d is rejected under Rule
2A: r receives the mismatch status and the 4004 close, the existing
session m is untouched, and the group created for Y on this attempt
remains in the registry as an empty group (it is not pruned; only a
later reaper sweep deletes it). -/
theorem c2_rule2A_mismatch_rejection (now la : Nat) (X Y d : String)
    (r m : SessionId) (f : SessionId → Session) (cache : List (Key × Int))
    (hXY : X ≠ Y) (hY : Y ≠ "") (hrm : r ≠ m)
    (hm : f m = { type := Role.bridge, scaleId := some X, deviceId := some d,
                  lastActivity := la, readyOpen := true }) :
    (handleRegisterBridge now r (some Y) (some d) (stOneBridge f X m cache)).2
      = [Effect.send r (Msg.statusMismatch (some X) (some Y)),
         Effect.close r 4004 reasonMismatch]
    ∧ (handleRegisterBridge now r (some Y) (some d) (stOneBridge f X m cache)).1.groups
        = [(some X, [m]), (some Y, [])]
    ∧ (handleRegisterBridge now r (some Y) (some d) (stOneBridge f X m cache)).1.sessions m
        = f m
    ∧ (applyClose r
        (handleRegisterBridge now r (some Y) (some d) (stOneBridge f X m cache)).1).groups
        = [(some X, [m]), (some Y, [])] := by
  have hxy : ((some X : Key) == some Y) = false := by simp [hXY]
  have hty : truthy (some Y) = true := by simp [truthy, hY]
  have hmr : m ≠ r := Ne.symm hrm
  unfold handleRegisterBridge stOneBridge applyClose
  simp [hty, setSess, lookupG, setG, scanGroups, scanGroup, isMatch, delS,
    hxy, hmr, hm, truthy, hY]

/-- C2 witness: the amended theorem at the concrete registry where
bridge 10 with device d holds scale X and session 1 attempts scale Y. -/
theorem c2_rule2A_mismatch_rejection_witness :
    (handleRegisterBridge 7 1 (some strY) (some strD)
        (stOneBridge stBridgeX.sessions strX 10 [])).2
      = [Effect.send 1 (Msg.statusMismatch (some strX) (some strY)),
         Effect.close 1 4004 reasonMismatch]
    ∧ (handleRegisterBridge 7 1 (some strY) (some strD)
        (stOneBridge stBridgeX.sessions strX 10 [])).1.groups
        = [(some strX, [10]), (some strY, [])]
    ∧ (handleRegisterBridge 7 1 (some strY) (some strD)
        (stOneBridge stBridgeX.sessions strX 10 [])).1.sessions 10
        = stBridgeX.sessions 10
    ∧ (applyClose 1 (handleRegisterBridge 7 1 (some strY) (some strD)
        (stOneBridge stBridgeX.sessions strX 10 [])).1).groups
        = [(some strX, [10]), (some strY, [])] :=
  c2_rule2A_mismatch_rejection 7 5 strX strY strD 1 10 stBridgeX.sessions []
    (by decide) (by decide) (by decide) (by decide)

/-- C7: from a registry with no groups, session 1 registers as bridge
for S from device d and is admitted; then session 2 registers as bridge
for the same S and d: the group of S keeps exactly the one member 1,
which stays open with its deviceId and lastActivity refreshed to the
second registration, while session 2 receives the merged status and the
4003 close; after that close is applied the group still holds exactly
the live session 1. -/
theorem c7_merge_idempotence (S : String) (d : Key) (t1 t2 : Nat)
    (f : SessionId → Session) (cache : List (Key × Int))
    (hS : S ≠ "") (h1open : (f 1).readyOpen = true) :
    (handleRegisterBridge t1 1 (some S) d
        { sessions := f, groups := [], lastWeight := cache }).2
      = [Effect.send 1 (Msg.statusBridgeRegistered (some S))]
    ∧ (handleRegisterBridge t2 2 (some S) d
        (handleRegisterBridge t1 1 (some S) d
          { sessions := f, groups := [], lastWeight := cache }).1).2
      = [Effect.send 2 Msg.statusMerged, Effect.close 2 4003 reasonMerged]
    ∧ (handleRegisterBridge t2 2 (some S) d
        (handleRegisterBridge t1 1 (some S) d
          { sessions := f, groups := [], lastWeight := cache }).1).1.groups
      = [(some S, [1])]
    ∧ (handleRegisterBridge t2 2 (some S) d
        (handleRegisterBridge t1 1 (some S) d
          { sessions := f, groups := [], lastWeight := cache }).1).1.sessions 1
      = { type := Role.bridge, scaleId := some S, deviceId := d,
          lastActivity := t2, readyOpen := true }
    ∧ (applyClose 2 (handleRegisterBridge t2 2 (some S) d
        (handleRegisterBridge t1 1 (some S) d
          { sessions := f, groups := [], lastWeight := cache }).1).1).groups
      = [(some S, [1])]
    ∧ ((applyClose 2 (handleRegisterBridge t2 2 (some S) d
        (handleRegisterBridge t1 1 (some S) d
          { sessions := f, groups := [], lastWeight := cache }).1).1).sessions 1).readyOpen
      = true := by
  have hty : truthy (some S) = true := by simp [truthy, hS]
  unfold handleRegisterBridge applyClose
  simp [hty, setSess, lookupG, setG, scanGroups, scanGroup, isMatch, addS,
    delS, List.contains, List.elem, h1open, truthy, hS]

/-- C7 witness: the scenario at scale S, device d, times 3 and 8,
starting from the all-fresh session pool. -/
theorem c7_merge_idempotence_witness :
    (handleRegisterBridge 3 1 (some strS) (some strD)
        { sessions := stEmpty.sessions, groups := [], lastWeight := [] }).2
      = [Effect.send 1 (Msg.statusBridgeRegistered (some strS))]
    ∧ (handleRegisterBridge 8 2 (some strS) (some strD)
        (handleRegisterBridge 3 1 (some strS) (some strD)
          { sessions := stEmpty.sessions, groups := [], lastWeight := [] }).1).2
      = [Effect.send 2 Msg.statusMerged, Effect.close 2 4003 reasonMerged]
    ∧ (handleRegisterBridge 8 2 (some strS) (some strD)
        (handleRegisterBridge 3 1 (some strS) (some strD)
          { sessions := stEmpty.sessions, groups := [], lastWeight := [] }).1).1.groups
      = [(some strS, [1])]
    ∧ (handleRegisterBridge 8 2 (some strS) (some strD)
        (handleRegisterBridge 3 1 (some strS) (some strD)
          { sessions := stEmpty.sessions, groups := [], lastWeight := [] }).1).1.sessions 1
      = { type := Role.bridge, scaleId := some strS, deviceId := some strD,
          lastActivity := 8, readyOpen := true }
    ∧ (applyClose 2 (handleRegisterBridge 8 2 (some strS) (some strD)
        (handleRegisterBridge 3 1 (some strS) (some strD)
          { sessions := stEmpty.sessions, groups := [], lastWeight := [] }).1).1).groups
      = [(some strS, [1])]
    ∧ ((applyClose 2 (handleRegisterBridge 8 2 (some strS) (some strD)
        (handleRegisterBridge 3 1 (some strS) (some strD)
          { sessions := stEmpty.sessions, groups := [], lastWeight := [] }).1).1).sessions 1).readyOpen
      = true :=
  c7_merge_idempotence strS (some strD) 3 8 stEmpty.sessions []
    (by decide) (by decide)

/-- C10: an already-admitted open bridge session s (the only bridge in
its group and the only session anywhere matching its deviceId) that
re-sends register-bridge with its own scaleId and deviceId is found by
the cross-group scan as the existing match, so the merge branch replies
with the merged status and closes the requesting session — s itself —
with 4003; once that close is applied, the group of S no longer contains
any bridge member. -/
theorem c10_self_reregister_merge (now : Nat) (st : ServerState)
    (s : SessionId) (S : String) (D : Key) (g : List SessionId) (la : Nat)
    (hS : S ≠ "")
    (hg : lookupG st.groups (some S) = some g)
    (hmem : s ∈ g)
    (hsess : st.sessions s
      = { type := Role.bridge, scaleId := some S, deviceId := D,
          lastActivity := la, readyOpen := true })
    (honly : ∀ p ∈ st.groups, ∀ c ∈ p.2, c ≠ s →
        ¬((st.sessions c).type = Role.bridge ∧ (st.sessions c).deviceId = D))
    (honlyS : ∀ c ∈ g, (st.sessions c).type = Role.bridge → c = s) :
    (handleRegisterBridge now s (some S) D st).2
      = [Effect.send s Msg.statusMerged, Effect.close s 4003 reasonMerged]
    ∧ (handleRegisterBridge now s (some S) D st).1.groups = st.groups
    ∧ lookupG (applyClose s (handleRegisterBridge now s (some S) D st).1).groups
        (some S) = some (delS g s)
    ∧ ∀ c ∈ delS g s,
        ((applyClose s (handleRegisterBridge now s (some S) D st).1).sessions c).type
          ≠ Role.bridge := by
  have hopen : (st.sessions s).readyOpen = true := by rw [hsess]
  have hty : truthy (some S) = true := by simp [truthy, hS]
  have hscan : scanGroups
      (fun i => if i = s then
        { type := Role.bridge, scaleId := some S, deviceId := D,
          lastActivity := now, readyOpen := (st.sessions s).readyOpen }
        else st.sessions i) D st.groups = (st.groups, some s) := by
    apply scanGroups_self
    · simp [isMatch]
    · simp [hopen]
    · intro p hp c hc hm2
      by_cases hcs : c = s
      · exact hcs
      · exfalso
        simp [isMatch, hcs] at hm2
        exact honly p hp c hc hcs hm2
    · exact ⟨(some S, g), lookupG_mem _ _ _ hg, hmem⟩
  unfold handleRegisterBridge
  simp only [hty, Bool.not_true, Bool.false_eq_true, if_false, setSess, hg,
    Option.getD_some]
  split
  · rename_i hcond
    exfalso
    rw [List.any_eq_true] at hcond
    obtain ⟨c, hc, hpc⟩ := hcond
    by_cases hcs : c = s
    · subst hcs
      simp at hpc
    · simp [hcs] at hpc
      exact hcs (honlyS c hc hpc.1)
  · rw [hscan]
    unfold applyClose
    simp only [setSess, hg, Option.getD_some]
    refine ⟨by simp, by simp [addS_mem g s hmem, setG_lookup_self st.groups (some S) g hg], ?_, ?_⟩
    · simp [hg, addS_mem g s hmem, setG_lookup_self st.groups (some S) g hg,
        hty, lookupG_setG_self]
    · intro c hc
      obtain ⟨hcg, hcs⟩ := mem_of_mem_delS hc
      simp [hg, addS_mem g s hmem, setG_lookup_self st.groups (some S) g hg,
        hty, hcs]
      exact fun hb => hcs (honlyS c hcg hb)

/-- C10 witness: bridge 1 on scale S re-sends register-bridge with its
own scaleId and deviceId: merged status, 4003 close of itself, group map
unchanged, and after the close the group of S is the empty set. -/
theorem c10_self_reregister_merge_witness :
    (handleRegisterBridge 9 1 (some strS) (some strD) stBridgeS).2
      = [Effect.send 1 Msg.statusMerged, Effect.close 1 4003 reasonMerged]
    ∧ (handleRegisterBridge 9 1 (some strS) (some strD) stBridgeS).1.groups
        = stBridgeS.groups
    ∧ lookupG
        (applyClose 1 (handleRegisterBridge 9 1 (some strS) (some strD) stBridgeS).1).groups
        (some strS) = some (delS [1] 1) :=
  ⟨(c10_self_reregister_merge 9 stBridgeS 1 strS (some strD) [1] 5
      (by decide) (by decide) (by decide) (by decide) (by decide) (by decide)).1,
   (c10_self_reregister_merge 9 stBridgeS 1 strS (some strD) [1] 5
      (by decide) (by decide) (by decide) (by decide) (by decide) (by decide)).2.1,
   (c10_self_reregister_merge 9 stBridgeS 1 strS (some strD) [1] 5
      (by decide) (by decide) (by decide) (by decide) (by decide) (by decide)).2.2.1⟩

end ScaleApp
